import Mathlib

/-!
A shallow embedding of the doris-operator `DorisCluster` reconciliation
pipeline (`internal/reconciler/doriscluster_reconciler.go`) and of the FE
resource transformer (`internal/transformer/fe_resources.go`), together with
theorems checking the natural-language specification against it.

Go maps are modelled as association lists whose lookup takes the first
matching key; a Go `nil` map is `Option.none` while an initialized map is
`Option.some`.  The external collaborators (the object-store client and the
autoscaler lookup) are modelled as a deterministic oracle `Env`, and every
client call issued by the reconciler is recorded in an execution trace.
Functions of this repository that are referenced by the two source files but
are themselves not under `src/` carry a doc comment starting with
`Modelled from the spec:`.
-/

namespace DorisOp

/-- association list modelling a Go `map[string]string`; lookup is first-match. -/
abbrev SMap := List (String × String)

/-- first-match lookup in an association list keyed by strings
(the semantics of reading a Go map, on the first-binding-wins representation). -/
def lookupKV {α : Type} : List (String × α) → String → Option α
  | [], _ => none
  | kv :: rest, k => if kv.1 = k then some kv.2 else lookupKV rest k

/-- Go `m[k] = v` on a non-nil map: replace the value at an existing key,
else append the new binding. -/
def mapSet {α : Type} (m : List (String × α)) (k : String) (v : α) : List (String × α) :=
  if (lookupKV m k).isSome then
    m.map (fun kv => if kv.1 = k then (k, v) else kv)
  else m ++ [(k, v)]

/-- keep only the first binding of each key not already in `seen`, so that in
the result every key occurs at most once (structural helper of `dedupKeys`). -/
def dedupKeysAux {α : Type} : List (String × α) → List String → List (String × α)
  | [], _ => []
  | kv :: rest, seen =>
    if kv.1 ∈ seen then dedupKeysAux rest seen
    else kv :: dedupKeysAux rest (kv.1 :: seen)

/-- drop all later bindings of keys that already occurred (first binding wins),
so that every key occurs at most once. -/
def dedupKeys {α : Type} (m : List (String × α)) : List (String × α) :=
  dedupKeysAux m []

/-- lexicographic comparison of character lists by code point, used to put map
entries into a canonical key order (kernel-reducible, unlike `String.le`). -/
def charsLe : List Char → List Char → Bool
  | [], _ => true
  | _ :: _, [] => false
  | a :: as, b :: bs =>
    if a.toNat < b.toNat then true
    else if b.toNat < a.toNat then false
    else charsLe as bs

/-- key order on map bindings: compare the key strings lexicographically. -/
def keyLe {α : Type} (a b : String × α) : Prop := charsLe a.1.data b.1.data = true

instance {α : Type} : DecidableRel (keyLe (α := α)) := fun a b =>
  inferInstanceAs (Decidable (charsLe a.1.data b.1.data = true))

/-- canonical form of a Go map value: duplicate keys dropped, entries sorted by
key.  Two association lists represent the same Go map exactly when their
canonical forms agree. -/
def canonMap {α : Type} (m : List (String × α)) : List (String × α) :=
  List.insertionSort keyLe (dedupKeys m)

/-- value stored under a key of a configuration bundle (`ConfigMap.Data`).
`rendered entries` stands for the Java-properties text produced by
`dumpJavaBasedComponentConf`; `raw` is a verbatim string value (e.g. a Hadoop
configuration file declared at cluster level). -/
inductive ConfVal : Type where
  | raw (s : String)
  | rendered (entries : SMap)
deriving DecidableEq, Repr

/-- the data of a configuration bundle, modelling Go `map[string]string`
(first-binding-wins association list). -/
abbrev DataMap := List (String × ConfVal)

/-- Modelled from the spec: `dumpJavaBasedComponentConf` (transformer common
code, not under src/) deterministically renders a role's free-form
configuration entries; per the spec's ConfigHash invariant the rendering is
content-faithful, so the rendered text is represented by the canonical entry
list itself. -/
def dumpJavaBasedComponentConf (configs : SMap) : ConfVal :=
  ConfVal.rendered (canonMap configs)

/-- Modelled from the spec: `util.MapMd5` (not under src/) is the deterministic
content digest of a configuration bundle ("identical configuration content ⇒
identical hash; any content change ⇒ new hash"); it is modelled as the
canonical entry list of the digested map. -/
def MapMd5 (data : DataMap) : DataMap := canonMap data

/-- Modelled from the spec: `util.MergeMaps` (not under src/) merges maps with
the later argument taking precedence; on the first-binding-wins representation
the higher-precedence map is put first. -/
def MergeMaps (low high : DataMap) : DataMap := high ++ low

/-- value of a workload-set annotation: a plain string, or the ConfigHash
digest written by the reconciler (an MD5 hex string in Go, represented by the
digested content, see `MapMd5`). -/
inductive AnnVal : Type where
  | str (s : String)
  | digest (d : DataMap)
deriving DecidableEq, Repr

/-- an annotations map (Go `map[string]string` restricted to annotation use). -/
abbrev AMap := List (String × AnnVal)

/-- object metadata; a Go nil map is `none`, an initialized map is `some`.
Fields not observed by any claim (owner references etc.) are elided. -/
structure ObjectMeta where
  ns : String := ""
  name : String := ""
  labels : Option SMap := none
  annotations : Option AMap := none
deriving DecidableEq, Repr

/-- a (namespace, name) identity of a managed object (`types.NamespacedName`). -/
structure ObjKey where
  ns : String
  name : String
deriving DecidableEq, Repr

/-- one entry of a Service's port list (`corev1.ServicePort`); the Go zero
value of `NodePort` is `0`. -/
structure ServicePort where
  name : String
  port : Int
  nodePort : Int := 0
deriving DecidableEq, Repr

/-- `corev1.Service`, restricted to the fields the transformer writes. -/
structure Service where
  metadata : ObjectMeta
  type : String := "ClusterIP"
  selector : Option SMap := none
  clusterIP : String := ""
  extTrafficPolicy : String := ""
  ports : List ServicePort := []
deriving DecidableEq, Repr

/-- `corev1.ConfigMap`, restricted to the fields the transformer writes. -/
structure ConfigMap where
  metadata : ObjectMeta
  data : DataMap
deriving DecidableEq, Repr

/-- pod spec of the workload set's template; only the field observed by the
claims (affinity) is kept, the remaining mechanical fields are elided. -/
structure PodSpec where
  affinity : Option String := none
deriving DecidableEq, Repr

/-- the workload set's pod template (`corev1.PodTemplateSpec`). -/
structure PodTemplateSpec where
  metadata : ObjectMeta
  spec : PodSpec
deriving DecidableEq, Repr

/-- `appv1.StatefulSetSpec`, restricted to the fields the claims observe. -/
structure StatefulSetSpec where
  replicas : Option Int
  serviceName : String
  template : PodTemplateSpec
deriving DecidableEq, Repr

/-- `appv1.StatefulSet` (the replicated workload set). -/
structure StatefulSet where
  metadata : ObjectMeta
  spec : StatefulSetSpec
deriving DecidableEq, Repr

/-- FE service overrides (`cr.Spec.FE.Service`); the Go zero value of the
`Type` string is `""`. -/
structure FeServiceSpec where
  type : String := ""
  extTrafficPolicy : Option String := none
  httpPort : Option Int := none
  queryPort : Option Int := none
deriving DecidableEq, Repr

/-- FE sub-spec; fields not observed by any claim (storage, additional
containers/volumes/envs, tolerations, host aliases, ...) are elided. -/
structure FeSpec where
  configs : SMap := []
  replicas : Int := 1
  service : Option FeServiceSpec := none
  affinity : Option String := none
deriving DecidableEq, Repr

/-- BE sub-spec (builder not under src/; only presence and the fields the
spec-modelled builders read are kept). -/
structure BeSpec where
  configs : SMap := []
  replicas : Int := 1
deriving DecidableEq, Repr

/-- CN sub-spec (builder not under src/; only presence, configuration and the
declared replica count are kept). -/
structure CnSpec where
  configs : SMap := []
  replicas : Int := 1
deriving DecidableEq, Repr

/-- Broker sub-spec (builder not under src/). -/
structure BrokerSpec where
  configs : SMap := []
  replicas : Int := 1
deriving DecidableEq, Repr

/-- shared Hadoop auxiliary configuration declared at cluster level. -/
structure HadoopConf where
  config : SMap := []
  hosts : List String := []
deriving DecidableEq, Repr

/-- the declared desired state: zero-or-one sub-specification per role;
an absent sub-spec means "this role is not desired". -/
structure DorisClusterSpec where
  fe : Option FeSpec := none
  be : Option BeSpec := none
  cn : Option CnSpec := none
  broker : Option BrokerSpec := none
  hadoopConf : Option HadoopConf := none
  affinity : Option String := none
deriving DecidableEq, Repr

/-- the `DorisCluster` custom resource (identity plus declared spec). -/
structure DorisCluster where
  ns : String
  name : String
  spec : DorisClusterSpec
deriving DecidableEq, Repr

/-- the object key of the cluster resource itself
(`client.ObjectKeyFromObject(r.CR)` / `r.CR.ObjKey()`). -/
def crObjKey (cr : DorisCluster) : ObjKey := ⟨cr.ns, cr.name⟩

/-- Modelled from the spec: the API group string (`dapi.GroupVersion.Group`,
declared in the api package which is not under src/).  Its exact value is
irrelevant to every claim; the four per-role hash-annotation keys below differ
in their suffixes. -/
def apiGroup : String := "al-assad.github.io"

/-- per-role ConfigHash annotation key for FE (source line 32). -/
def FeConfHashAnnotationKey : String := apiGroup ++ "/fe-config"

/-- per-role ConfigHash annotation key for BE (source line 33). -/
def BeConfHashAnnotationKey : String := apiGroup ++ "/be-config"

/-- per-role ConfigHash annotation key for CN (source line 34). -/
def CnConfHashAnnotationKey : String := apiGroup ++ "/cn-config"

/-- per-role ConfigHash annotation key for Broker (source line 35). -/
def BrokerConfHashAnnotationKey : String := apiGroup ++ "/broker-config"

/-- Modelled from the spec: Prometheus scrape annotation keys (transformer
common code, not under src/). -/
def PrometheusPathAnnoKey : String := "prometheus.io/path"

/-- Modelled from the spec: Prometheus port annotation key. -/
def PrometheusPortAnnoKey : String := "prometheus.io/port"

/-- Modelled from the spec: Prometheus scrape toggle annotation key. -/
def PrometheusScrapeAnnoKey : String := "prometheus.io/scrape"

/-- compiled-in default FE http port (source line 36). -/
def DefaultFeHttpPort : Int := 8030

/-- compiled-in default FE edit-log port (source line 37). -/
def DefaultFeEditLogPort : Int := 9010

/-- compiled-in default FE rpc port (source line 38). -/
def DefaultFeRpcPort : Int := 9020

/-- compiled-in default FE query port (source line 39). -/
def DefaultFeQueryPort : Int := 9030

/-- Modelled from the spec: `MakeResourceLabels` (transformer common code, not
under src/) returns deterministic identifying labels for (cluster, role). -/
def MakeResourceLabels (name roleTag : String) : SMap :=
  [("app.kubernetes.io/name", "doris-cluster"),
   ("app.kubernetes.io/instance", name),
   ("app.kubernetes.io/component", roleTag)]

/-- labels shared by all FE-owned objects. -/
def GetFeComponentLabels (cr : DorisCluster) : SMap :=
  MakeResourceLabels cr.name "fe"

/-- name of the FE configuration bundle: `<cluster-name>-fe-config`. -/
def GetFeConfigMapName (cr : DorisCluster) : ObjKey :=
  ⟨cr.ns, cr.name ++ "-fe-config"⟩

/-- name of the FE client-facing service: `<cluster-name>-fe`. -/
def GetFeServiceName (cr : DorisCluster) : ObjKey :=
  ⟨cr.ns, cr.name ++ "-fe"⟩

/-- name of the FE headless peer service: `<cluster-name>-fe-peer`. -/
def GetFePeerServiceName (cr : DorisCluster) : ObjKey :=
  ⟨cr.ns, cr.name ++ "-fe-peer"⟩

/-- name of the FE workload set: `<cluster-name>-fe`. -/
def GetFeStatefulSetName (cr : DorisCluster) : ObjKey :=
  ⟨cr.ns, cr.name ++ "-fe"⟩

/-- decimal digit value of a character, if it is a digit. -/
def digitVal (c : Char) : Option Nat :=
  if 48 ≤ c.toNat ∧ c.toNat ≤ 57 then some (c.toNat - 48) else none

/-- accumulate decimal digits into a number; any non-digit fails the parse. -/
def parseDigits : List Char → Nat → Option Nat
  | [], acc => some acc
  | c :: cs, acc =>
    match digitVal c with
    | some d => parseDigits cs (acc * 10 + d)
    | none => none

/-- parse a non-empty all-digit string as a number (the shape every port value
takes); anything else fails. -/
def parsePortStr (s : String) : Option Int :=
  match s.data with
  | [] => none
  | l => (parseDigits l 0).map Int.ofNat

/-- Modelled from the spec: `getPortValueFromRawConf` (transformer common code,
not under src/) reads a named key from the role's free-form config map,
"falling back to role-specific compiled-in defaults when absent". -/
def getPortValueFromRawConf (configs : SMap) (key : String) (dft : Int) : Int :=
  match lookupKV configs key with
  | some s => (parsePortStr s).getD dft
  | none => dft

/-- FE http port: key `"http_port"`, default 8030 (source lines 74-79). -/
def GetFeHttpPort (cr : DorisCluster) : Int :=
  match cr.spec.fe with
  | none => DefaultFeHttpPort
  | some fe => getPortValueFromRawConf fe.configs "http_port" DefaultFeHttpPort

/-- FE query port: key `"query_port"`, default 9030 (source lines 81-86). -/
def GetFeQueryPort (cr : DorisCluster) : Int :=
  match cr.spec.fe with
  | none => DefaultFeQueryPort
  | some fe => getPortValueFromRawConf fe.configs "query_port" DefaultFeQueryPort

/-- FE rpc port exactly as in the source (lines 88-93): it reads key
`"query_port"` (sic, not `"rpc_port"`), with `DefaultFeRpcPort` as fallback. -/
def GetFeRpcPort (cr : DorisCluster) : Int :=
  match cr.spec.fe with
  | none => DefaultFeRpcPort
  | some fe => getPortValueFromRawConf fe.configs "query_port" DefaultFeRpcPort

/-- FE edit-log port: key `"edit_log_port"`, default 9010 (source lines 95-100). -/
def GetFeEditLogPort (cr : DorisCluster) : Int :=
  match cr.spec.fe with
  | none => DefaultFeEditLogPort
  | some fe => getPortValueFromRawConf fe.configs "edit_log_port" DefaultFeEditLogPort

/-- body of `MakeFeConfigMap` (source lines 102-124) for a present FE
sub-spec: the `fe.conf` rendering of the sub-spec's configs, with the
cluster-level Hadoop configuration data merged in (the role data winning). -/
def feConfigMapObj (cr : DorisCluster) (fe : FeSpec) : ConfigMap :=
  let ref := GetFeConfigMapName cr
  let data : DataMap := [("fe.conf", dumpJavaBasedComponentConf fe.configs)]
  let data : DataMap :=
    match cr.spec.hadoopConf with
    | some h => MergeMaps (h.config.map fun kv => (kv.1, ConfVal.raw kv.2)) data
    | none => data
  { metadata := { ns := ref.ns, name := ref.name, labels := some (GetFeComponentLabels cr) },
    data := data }

/-- `MakeFeConfigMap` (source lines 102-124); returns Go `nil` (here `none`)
when the FE sub-spec is absent. -/
def MakeFeConfigMap (cr : DorisCluster) : Option ConfigMap :=
  cr.spec.fe.map (feConfigMapObj cr)

/-- body of `MakeFeService` (source lines 126-170) for a present FE sub-spec.
It reproduces the source faithfully, including the NodePort assignments:
a user-supplied `QueryPort` override lands on the `http-port` entry and a
user-supplied `HttpPort` override lands on the `query-port` entry
(source lines 160-165). -/
def feServiceObj (cr : DorisCluster) (fe : FeSpec) : Service :=
  let serviceRef := GetFeServiceName cr
  let feLabels := GetFeComponentLabels cr
  let base : Service :=
    { metadata := { ns := serviceRef.ns, name := serviceRef.name, labels := some feLabels },
      type := "ClusterIP", selector := some feLabels }
  let httpPort : ServicePort := { name := "http-port", port := GetFeHttpPort cr }
  let queryPort : ServicePort := { name := "query-port", port := GetFeQueryPort cr }
  match fe.service with
  | none => { base with ports := [httpPort, queryPort] }
  | some crSvc =>
    let base := if crSvc.type ≠ "" then { base with type := crSvc.type } else base
    let base :=
      match crSvc.extTrafficPolicy with
      | some p => { base with extTrafficPolicy := p }
      | none => base
    let httpPort :=
      match crSvc.queryPort with
      | some np => { httpPort with nodePort := np }
      | none => httpPort
    let queryPort :=
      match crSvc.httpPort with
      | some np => { queryPort with nodePort := np }
      | none => queryPort
    { base with ports := [httpPort, queryPort] }

/-- `MakeFeService` (source lines 126-170). -/
def MakeFeService (cr : DorisCluster) : Option Service :=
  cr.spec.fe.map (feServiceObj cr)

/-- body of `MakeFePeerService` (source lines 172-205): headless service with
http, edit-log and rpc ports. -/
def fePeerServiceObj (cr : DorisCluster) (_fe : FeSpec) : Service :=
  let serviceRef := GetFePeerServiceName cr
  let feLabels := GetFeComponentLabels cr
  { metadata := { ns := serviceRef.ns, name := serviceRef.name, labels := some feLabels },
    type := "ClusterIP", selector := some feLabels, clusterIP := "None",
    ports :=
      [{ name := "http-port", port := GetFeHttpPort cr },
       { name := "edit-log-port", port := GetFeEditLogPort cr },
       { name := "rpc-port", port := GetFeRpcPort cr }] }

/-- `MakeFePeerService` (source lines 172-205). -/
def MakeFePeerService (cr : DorisCluster) : Option Service :=
  cr.spec.fe.map (fePeerServiceObj cr)

/-- `util.PointerFallback`: first pointer if non-nil, else the second. -/
def PointerFallback {α : Type} (a b : Option α) : Option α :=
  match a with
  | some x => some x
  | none => b

/-- body of `MakeFeStatefulSet` (source lines 207-387) for a present FE
sub-spec, restricted to the fields the claims observe.  Its own object
metadata carries name/namespace/labels but NO annotations map (the Go
composite literal at lines 369-374 leaves `Annotations` nil); the pod
template metadata carries the three Prometheus annotations (lines 338-346). -/
def feStatefulSetObj (cr : DorisCluster) (fe : FeSpec) : StatefulSet :=
  let statefulSetRef := GetFeStatefulSetName cr
  let feLabels := GetFeComponentLabels cr
  { metadata :=
      { ns := statefulSetRef.ns, name := statefulSetRef.name,
        labels := some feLabels, annotations := none },
    spec :=
      { replicas := some fe.replicas,
        serviceName := (GetFePeerServiceName cr).name,
        template :=
          { metadata :=
              { labels := some feLabels,
                annotations := some
                  [(PrometheusPathAnnoKey, AnnVal.str "/metrics"),
                   (PrometheusPortAnnoKey, AnnVal.str (toString (GetFeHttpPort cr))),
                   (PrometheusScrapeAnnoKey, AnnVal.str "true")] },
            spec := { affinity := PointerFallback fe.affinity cr.spec.affinity } } } }

/-- `MakeFeStatefulSet` (source lines 207-387). -/
def MakeFeStatefulSet (cr : DorisCluster) : Option StatefulSet :=
  cr.spec.fe.map (feStatefulSetObj cr)

/-- the stage identifiers of `dapi.DorisClusterOprStage` (declared in the api
package, not under src/; the reconciler only ever compares and stores them). -/
inductive DorisClusterOprStage : Type where
  | StageSqlAccountSecret
  | StageFe | StageFeConfigmap | StageFeService | StageFeStatefulSet
  | StageBe | StageBeConfigmap | StageBeService | StageBeStatefulSet
  | StageCn | StageCnConfigmap | StageCnService | StageCnStatefulSet
  | StageBroker | StageBrokerConfigmap | StageBrokerService | StageBrokerStatefulSet
  | StageComplete
deriving DecidableEq, Repr

/-- the stage status values of `dapi.OprStageStatus` (succeeded/failed). -/
inductive OprStageStatus : Type where
  | StageResultSucceeded
  | StageResultFailed
deriving DecidableEq, Repr

/-- the stage action values of `dapi.OprStageAction`; `StageActionNone` models
the Go zero value (empty string) left by a composite literal that omits it. -/
inductive OprStageAction : Type where
  | StageActionApply
  | StageActionDelete
  | StageActionNone
deriving DecidableEq, Repr

/-- a Go `error` value is modelled by its message. -/
abbrev Err := String

/-- `ClusterStageRecResult` (source lines 44-50): the result of a stage
reconciliation; `err = none` models a nil error. -/
structure ClusterStageRecResult where
  stage : DorisClusterOprStage
  status : OprStageStatus
  action : OprStageAction := OprStageAction.StageActionNone
  err : Option Err := none
deriving DecidableEq, Repr

/-- the `Error()` method of `ClusterStageRecResult` (source lines 52-58). -/
def ClusterStageRecResult.errorMsg (r : ClusterStageRecResult) : String :=
  match r.err with
  | some e => e
  | none => ""

/-- `clusterStageSucc` (source lines 78-80). -/
def clusterStageSucc (stage : DorisClusterOprStage) (action : OprStageAction) :
    ClusterStageRecResult :=
  { stage := stage, status := OprStageStatus.StageResultSucceeded, action := action }

/-- `clusterStageFail` exactly as in the source (lines 82-84): note that the
status field is set to `StageResultSucceeded` (sic) even though the result
carries the error. -/
def clusterStageFail (stage : DorisClusterOprStage) (action : OprStageAction)
    (e : Err) : ClusterStageRecResult :=
  { stage := stage, status := OprStageStatus.StageResultSucceeded, action := action,
    err := some e }

/-- the kinds of managed objects the reconciler touches. -/
inductive K8sKind : Type where
  | secret | configMap | service | statefulSet
deriving DecidableEq, Repr

/-- a managed object handed to the object-store client.  The operator secret
is kept only by its key: its content never influences the reconciler logic
under src/. -/
inductive K8sObj : Type where
  | secret (key : ObjKey)
  | configMap (cm : ConfigMap)
  | service (svc : Service)
  | statefulSet (sts : StatefulSet)
deriving DecidableEq, Repr

/-- one call issued against an external collaborator; a reconciliation pass
records the list of these in order. -/
inductive ClientOp : Type where
  | exist (key : ObjKey) (kind : K8sKind)
  | create (obj : K8sObj)
  | createOrUpdate (obj : K8sObj)
  | deleteWhenExist (key : ObjKey) (kind : K8sKind)
  | findAutoScaler (key : ObjKey)
deriving DecidableEq, Repr

/-- the execution trace of a reconciliation pass: every client call, in order. -/
abbrev Trace := List ClientOp

/-- the bound autoscaler resource, kept opaque (only its presence matters). -/
structure DorisAutoScaler where
  name : String
deriving DecidableEq, Repr

/-- deterministic oracle for the external collaborators (`ReconcileContext`):
the outcome of each existence check, create, create-or-update, delete-if-exists
and autoscaler lookup.  `none` / `Except.ok` model nil errors. -/
structure Env where
  existRes : ObjKey → K8sKind → Except Err Bool
  createRes : K8sObj → Option Err
  createOrUpdateRes : K8sObj → Option Err
  deleteRes : ObjKey → K8sKind → Option Err
  autoScalerRes : ObjKey → Except Err (Option DorisAutoScaler)

/-- a Go runtime fault of the reconciler itself. -/
inductive Panic : Type where
  | nilMapWrite
deriving DecidableEq, Repr

/-- outcome of a stage function: a runtime fault, or a stage result together
with the trace of client calls issued so far. -/
abbrev StageOut := Except Panic (ClusterStageRecResult × Trace)

/-- a stage function, already bound to its cluster and environment. -/
abbrev StageFn := Trace → StageOut

/-- Go `m[k] = v` where `m` may be a nil map: writing into a nil map is a
runtime fault (Go fails with "assignment to entry in nil map"). -/
def nilMapSet (m : Option AMap) (k : String) (v : AnnVal) : Except Panic (Option AMap) :=
  match m with
  | none => Except.error Panic.nilMapWrite
  | some l => Except.ok (some (mapSet l k v))

/-- Modelled from the spec: `GetOprSqlAccountSecretKey` (transformer code not
under src/) derives the credential secret's identity from the cluster's own
identity. -/
def GetOprSqlAccountSecretKey (cr : DorisCluster) : ObjKey :=
  ⟨cr.ns, cr.name ++ "-opr-account"⟩

/-- Modelled from the spec: `MakeOprSqlAccountSecret` (not under src/) builds
the credential object; its content is opaque to the reconciler, so the object
is modelled by its key alone. -/
def MakeOprSqlAccountSecret (cr : DorisCluster) : K8sObj :=
  K8sObj.secret (GetOprSqlAccountSecretKey cr)

/-- `recOprAccountSecret` (source lines 88-104): check whether the credential
secret exists; create it only when the check reports it absent. -/
def recOprAccountSecret (cr : DorisCluster) (env : Env) : StageFn := fun t =>
  let secretRef := GetOprSqlAccountSecretKey cr
  let action := OprStageAction.StageActionApply
  let t := t ++ [ClientOp.exist secretRef K8sKind.secret]
  match env.existRes secretRef K8sKind.secret with
  | Except.error e =>
    Except.ok (clusterStageFail DorisClusterOprStage.StageSqlAccountSecret action e, t)
  | Except.ok ex =>
    if !ex then
      let newSecret := MakeOprSqlAccountSecret cr
      let t := t ++ [ClientOp.create newSecret]
      match env.createRes newSecret with
      | some e =>
        Except.ok (clusterStageFail DorisClusterOprStage.StageSqlAccountSecret action e, t)
      | none =>
        Except.ok (clusterStageSucc DorisClusterOprStage.StageSqlAccountSecret action, t)
    else
      Except.ok (clusterStageSucc DorisClusterOprStage.StageSqlAccountSecret action, t)

/-- the apply path of `recFeResources` (source lines 110-133), for a present FE
sub-spec: apply configmap, client service, peer service; build the workload
set, stamp the ConfigHash into the StatefulSet object's own annotations map
(line 128: `statefulSet.Annotations[FeConfHashAnnotationKey] = util.MapMd5(configMap.Data)`,
a nil-map write since `MakeFeStatefulSet` leaves that map nil), then apply it. -/
def feApplyRes (cr : DorisCluster) (fe : FeSpec) (env : Env) : StageFn := fun t =>
  let action := OprStageAction.StageActionApply
  let configMap := feConfigMapObj cr fe
  let t := t ++ [ClientOp.createOrUpdate (K8sObj.configMap configMap)]
  match env.createOrUpdateRes (K8sObj.configMap configMap) with
  | some e => Except.ok (clusterStageFail DorisClusterOprStage.StageFeConfigmap action e, t)
  | none =>
  let service := feServiceObj cr fe
  let t := t ++ [ClientOp.createOrUpdate (K8sObj.service service)]
  match env.createOrUpdateRes (K8sObj.service service) with
  | some e => Except.ok (clusterStageFail DorisClusterOprStage.StageFeService action e, t)
  | none =>
  let peerService := fePeerServiceObj cr fe
  let t := t ++ [ClientOp.createOrUpdate (K8sObj.service peerService)]
  match env.createOrUpdateRes (K8sObj.service peerService) with
  | some e => Except.ok (clusterStageFail DorisClusterOprStage.StageFeService action e, t)
  | none =>
  let statefulSet := feStatefulSetObj cr fe
  match nilMapSet statefulSet.metadata.annotations FeConfHashAnnotationKey
      (AnnVal.digest (MapMd5 configMap.data)) with
  | Except.error p => Except.error p
  | Except.ok anns =>
  let statefulSet := { statefulSet with metadata := { statefulSet.metadata with annotations := anns } }
  let t := t ++ [ClientOp.createOrUpdate (K8sObj.statefulSet statefulSet)]
  match env.createOrUpdateRes (K8sObj.statefulSet statefulSet) with
  | some e => Except.ok (clusterStageFail DorisClusterOprStage.StageFeStatefulSet action e, t)
  | none => Except.ok (clusterStageSucc DorisClusterOprStage.StageFe action, t)

/-- the delete path of `recFeResources` (source lines 136-158): delete-if-exists
the workload set, the client service, the peer service and the configmap, in
that order; every failure branch reports `StageFeConfigmap` (sic, lines
141-155), whichever step failed. -/
def feDeleteRes (cr : DorisCluster) (env : Env) : StageFn := fun t =>
  let action := OprStageAction.StageActionDelete
  let statefulsetRef := GetFeStatefulSetName cr
  let t := t ++ [ClientOp.deleteWhenExist statefulsetRef K8sKind.statefulSet]
  match env.deleteRes statefulsetRef K8sKind.statefulSet with
  | some e => Except.ok (clusterStageFail DorisClusterOprStage.StageFeConfigmap action e, t)
  | none =>
  let serviceRef := GetFeServiceName cr
  let t := t ++ [ClientOp.deleteWhenExist serviceRef K8sKind.service]
  match env.deleteRes serviceRef K8sKind.service with
  | some e => Except.ok (clusterStageFail DorisClusterOprStage.StageFeConfigmap action e, t)
  | none =>
  let peerServiceRef := GetFePeerServiceName cr
  let t := t ++ [ClientOp.deleteWhenExist peerServiceRef K8sKind.service]
  match env.deleteRes peerServiceRef K8sKind.service with
  | some e => Except.ok (clusterStageFail DorisClusterOprStage.StageFeConfigmap action e, t)
  | none =>
  let configMapRef := GetFeConfigMapName cr
  let t := t ++ [ClientOp.deleteWhenExist configMapRef K8sKind.configMap]
  match env.deleteRes configMapRef K8sKind.configMap with
  | some e => Except.ok (clusterStageFail DorisClusterOprStage.StageFeConfigmap action e, t)
  | none => Except.ok (clusterStageSucc DorisClusterOprStage.StageFe action, t)

/-- `recFeResources` (source lines 107-161): `util.Elvis(r.CR.Spec.FE != nil,
applyRes, deleteRes)()`. -/
def recFeResources (cr : DorisCluster) (env : Env) : StageFn := fun t =>
  match cr.spec.fe with
  | some fe => feApplyRes cr fe env t
  | none => feDeleteRes cr env t

/-- name of the BE configuration bundle (naming pattern per spec §3). -/
def GetBeConfigMapName (cr : DorisCluster) : ObjKey := ⟨cr.ns, cr.name ++ "-be-config"⟩

/-- name of the BE client-facing service. -/
def GetBeServiceName (cr : DorisCluster) : ObjKey := ⟨cr.ns, cr.name ++ "-be"⟩

/-- name of the BE headless peer service. -/
def GetBePeerServiceName (cr : DorisCluster) : ObjKey := ⟨cr.ns, cr.name ++ "-be-peer"⟩

/-- name of the BE workload set. -/
def GetBeStatefulSetName (cr : DorisCluster) : ObjKey := ⟨cr.ns, cr.name ++ "-be"⟩

/-- Modelled from the spec: `MakeBeConfigMap` (not under src/) builds the BE
configuration bundle from the sub-spec's free-form configs, merged with the
cluster-level Hadoop data, mirroring the FE builder (spec §4.2 step 1). -/
def beConfigMapObj (cr : DorisCluster) (be : BeSpec) : ConfigMap :=
  let ref := GetBeConfigMapName cr
  let data : DataMap := [("be.conf", dumpJavaBasedComponentConf be.configs)]
  let data : DataMap :=
    match cr.spec.hadoopConf with
    | some h => MergeMaps (h.config.map fun kv => (kv.1, ConfVal.raw kv.2)) data
    | none => data
  { metadata :=
      { ns := ref.ns, name := ref.name,
        labels := some (MakeResourceLabels cr.name "be") },
    data := data }

/-- Modelled from the spec: `MakeBeService` (not under src/); a mechanical
client-facing endpoint builder whose port details no claim observes. -/
def beServiceObj (cr : DorisCluster) (_be : BeSpec) : Service :=
  let ref := GetBeServiceName cr
  { metadata :=
      { ns := ref.ns, name := ref.name,
        labels := some (MakeResourceLabels cr.name "be") },
    type := "ClusterIP", selector := some (MakeResourceLabels cr.name "be") }

/-- Modelled from the spec: `MakeBePeerService` (not under src/); the headless
peer-discovery endpoint. -/
def bePeerServiceObj (cr : DorisCluster) (_be : BeSpec) : Service :=
  let ref := GetBePeerServiceName cr
  { metadata :=
      { ns := ref.ns, name := ref.name,
        labels := some (MakeResourceLabels cr.name "be") },
    type := "ClusterIP", selector := some (MakeResourceLabels cr.name "be"),
    clusterIP := "None" }

/-- Modelled from the spec: `MakeBeStatefulSet` (not under src/) builds a
fully-populated workload set carrying the sub-spec's declared replica count;
its object annotations map is taken to be initialized. -/
def beStatefulSetObj (cr : DorisCluster) (be : BeSpec) : StatefulSet :=
  let ref := GetBeStatefulSetName cr
  { metadata :=
      { ns := ref.ns, name := ref.name,
        labels := some (MakeResourceLabels cr.name "be"), annotations := some [] },
    spec :=
      { replicas := some be.replicas,
        serviceName := (GetBePeerServiceName cr).name,
          template :=
          { metadata :=
              { labels := some (MakeResourceLabels cr.name "be"), annotations := some [] },
            spec := {} } } }

/-- the apply path of `recBeResources` (source lines 167-190). -/
def beApplyRes (cr : DorisCluster) (be : BeSpec) (env : Env) : StageFn := fun t =>
  let action := OprStageAction.StageActionApply
  let configMap := beConfigMapObj cr be
  let t := t ++ [ClientOp.createOrUpdate (K8sObj.configMap configMap)]
  match env.createOrUpdateRes (K8sObj.configMap configMap) with
  | some e => Except.ok (clusterStageFail DorisClusterOprStage.StageBeConfigmap action e, t)
  | none =>
  let service := beServiceObj cr be
  let t := t ++ [ClientOp.createOrUpdate (K8sObj.service service)]
  match env.createOrUpdateRes (K8sObj.service service) with
  | some e => Except.ok (clusterStageFail DorisClusterOprStage.StageBeService action e, t)
  | none =>
  let peerService := bePeerServiceObj cr be
  let t := t ++ [ClientOp.createOrUpdate (K8sObj.service peerService)]
  match env.createOrUpdateRes (K8sObj.service peerService) with
  | some e => Except.ok (clusterStageFail DorisClusterOprStage.StageBeService action e, t)
  | none =>
  let statefulSet := beStatefulSetObj cr be
  match nilMapSet statefulSet.metadata.annotations BeConfHashAnnotationKey
      (AnnVal.digest (MapMd5 configMap.data)) with
  | Except.error p => Except.error p
  | Except.ok anns =>
  let statefulSet := { statefulSet with metadata := { statefulSet.metadata with annotations := anns } }
  let t := t ++ [ClientOp.createOrUpdate (K8sObj.statefulSet statefulSet)]
  match env.createOrUpdateRes (K8sObj.statefulSet statefulSet) with
  | some e => Except.ok (clusterStageFail DorisClusterOprStage.StageBeStatefulSet action e, t)
  | none => Except.ok (clusterStageSucc DorisClusterOprStage.StageBe action, t)

/-- the delete path of `recBeResources` (source lines 193-215); every failure
branch reports `StageBeConfigmap` (sic). -/
def beDeleteRes (cr : DorisCluster) (env : Env) : StageFn := fun t =>
  let action := OprStageAction.StageActionDelete
  let statefulsetRef := GetBeStatefulSetName cr
  let t := t ++ [ClientOp.deleteWhenExist statefulsetRef K8sKind.statefulSet]
  match env.deleteRes statefulsetRef K8sKind.statefulSet with
  | some e => Except.ok (clusterStageFail DorisClusterOprStage.StageBeConfigmap action e, t)
  | none =>
  let serviceRef := GetBeServiceName cr
  let t := t ++ [ClientOp.deleteWhenExist serviceRef K8sKind.service]
  match env.deleteRes serviceRef K8sKind.service with
  | some e => Except.ok (clusterStageFail DorisClusterOprStage.StageBeConfigmap action e, t)
  | none =>
  let peerServiceRef := GetBePeerServiceName cr
  let t := t ++ [ClientOp.deleteWhenExist peerServiceRef K8sKind.service]
  match env.deleteRes peerServiceRef K8sKind.service with
  | some e => Except.ok (clusterStageFail DorisClusterOprStage.StageBeConfigmap action e, t)
  | none =>
  let configMapRef := GetBeConfigMapName cr
  let t := t ++ [ClientOp.deleteWhenExist configMapRef K8sKind.configMap]
  match env.deleteRes configMapRef K8sKind.configMap with
  | some e => Except.ok (clusterStageFail DorisClusterOprStage.StageBeConfigmap action e, t)
  | none => Except.ok (clusterStageSucc DorisClusterOprStage.StageBe action, t)

/-- `recBeResources` (source lines 164-218). -/
def recBeResources (cr : DorisCluster) (env : Env) : StageFn := fun t =>
  match cr.spec.be with
  | some be => beApplyRes cr be env t
  | none => beDeleteRes cr env t

/-- name of the CN configuration bundle. -/
def GetCnConfigMapName (cr : DorisCluster) : ObjKey := ⟨cr.ns, cr.name ++ "-cn-config"⟩

/-- name of the CN client-facing service. -/
def GetCnServiceName (cr : DorisCluster) : ObjKey := ⟨cr.ns, cr.name ++ "-cn"⟩

/-- name of the CN headless peer service. -/
def GetCnPeerServiceName (cr : DorisCluster) : ObjKey := ⟨cr.ns, cr.name ++ "-cn-peer"⟩

/-- name of the CN workload set. -/
def GetCnStatefulSetName (cr : DorisCluster) : ObjKey := ⟨cr.ns, cr.name ++ "-cn"⟩

/-- Modelled from the spec: `MakeCnConfigMap` (not under src/), mirroring the
FE configuration-bundle builder. -/
def cnConfigMapObj (cr : DorisCluster) (cn : CnSpec) : ConfigMap :=
  let ref := GetCnConfigMapName cr
  let data : DataMap := [("be.conf", dumpJavaBasedComponentConf cn.configs)]
  let data : DataMap :=
    match cr.spec.hadoopConf with
    | some h => MergeMaps (h.config.map fun kv => (kv.1, ConfVal.raw kv.2)) data
    | none => data
  { metadata :=
      { ns := ref.ns, name := ref.name,
        labels := some (MakeResourceLabels cr.name "cn") },
    data := data }

/-- Modelled from the spec: `MakeCnService` (not under src/). -/
def cnServiceObj (cr : DorisCluster) (_cn : CnSpec) : Service :=
  let ref := GetCnServiceName cr
  { metadata :=
      { ns := ref.ns, name := ref.name,
        labels := some (MakeResourceLabels cr.name "cn") },
    type := "ClusterIP", selector := some (MakeResourceLabels cr.name "cn") }

/-- Modelled from the spec: `MakeCnPeerService` (not under src/). -/
def cnPeerServiceObj (cr : DorisCluster) (_cn : CnSpec) : Service :=
  let ref := GetCnPeerServiceName cr
  { metadata :=
      { ns := ref.ns, name := ref.name,
        labels := some (MakeResourceLabels cr.name "cn") },
    type := "ClusterIP", selector := some (MakeResourceLabels cr.name "cn"),
    clusterIP := "None" }

/-- Modelled from the spec: `MakeCnStatefulSet` (not under src/) builds a
fully-populated workload set carrying the CN sub-spec's declared replica count
(spec §3 RoleSubSpec, §8 "spec initially declares CN with replicas=3 ...");
its object annotations map is taken to be initialized. -/
def cnStatefulSetObj (cr : DorisCluster) (cn : CnSpec) : StatefulSet :=
  let ref := GetCnStatefulSetName cr
  { metadata :=
      { ns := ref.ns, name := ref.name,
        labels := some (MakeResourceLabels cr.name "cn"), annotations := some [] },
    spec :=
      { replicas := some cn.replicas,
        serviceName := (GetCnPeerServiceName cr).name,
          template :=
          { metadata :=
              { labels := some (MakeResourceLabels cr.name "cn"), annotations := some [] },
            spec := {} } } }

/-- the apply path of `recCnResources` (source lines 224-258): apply configmap
and the two services; build the workload set and stamp the ConfigHash; query
the autoscaler binding (line 246) and abort on a lookup error; when a binding
exists, null out the replica field (line 251); then apply the workload set. -/
def cnApplyRes (cr : DorisCluster) (cn : CnSpec) (env : Env) : StageFn := fun t =>
  let action := OprStageAction.StageActionApply
  let configMap := cnConfigMapObj cr cn
  let t := t ++ [ClientOp.createOrUpdate (K8sObj.configMap configMap)]
  match env.createOrUpdateRes (K8sObj.configMap configMap) with
  | some e => Except.ok (clusterStageFail DorisClusterOprStage.StageCnConfigmap action e, t)
  | none =>
  let service := cnServiceObj cr cn
  let t := t ++ [ClientOp.createOrUpdate (K8sObj.service service)]
  match env.createOrUpdateRes (K8sObj.service service) with
  | some e => Except.ok (clusterStageFail DorisClusterOprStage.StageCnService action e, t)
  | none =>
  let peerService := cnPeerServiceObj cr cn
  let t := t ++ [ClientOp.createOrUpdate (K8sObj.service peerService)]
  match env.createOrUpdateRes (K8sObj.service peerService) with
  | some e => Except.ok (clusterStageFail DorisClusterOprStage.StageCnService action e, t)
  | none =>
  let statefulSet := cnStatefulSetObj cr cn
  match nilMapSet statefulSet.metadata.annotations CnConfHashAnnotationKey
      (AnnVal.digest (MapMd5 configMap.data)) with
  | Except.error p => Except.error p
  | Except.ok anns =>
  let statefulSet := { statefulSet with metadata := { statefulSet.metadata with annotations := anns } }
  let t := t ++ [ClientOp.findAutoScaler (crObjKey cr)]
  match env.autoScalerRes (crObjKey cr) with
  | Except.error e =>
    Except.ok (clusterStageFail DorisClusterOprStage.StageCnStatefulSet action e, t)
  | Except.ok autoScaler =>
  let statefulSet :=
    if autoScaler.isSome then
      { statefulSet with spec := { statefulSet.spec with replicas := none } }
    else statefulSet
  let t := t ++ [ClientOp.createOrUpdate (K8sObj.statefulSet statefulSet)]
  match env.createOrUpdateRes (K8sObj.statefulSet statefulSet) with
  | some e => Except.ok (clusterStageFail DorisClusterOprStage.StageCnStatefulSet action e, t)
  | none => Except.ok (clusterStageSucc DorisClusterOprStage.StageCn action, t)

/-- the delete path of `recCnResources` (source lines 261-283); every failure
branch reports `StageCnConfigmap` (sic). -/
def cnDeleteRes (cr : DorisCluster) (env : Env) : StageFn := fun t =>
  let action := OprStageAction.StageActionDelete
  let statefulsetRef := GetCnStatefulSetName cr
  let t := t ++ [ClientOp.deleteWhenExist statefulsetRef K8sKind.statefulSet]
  match env.deleteRes statefulsetRef K8sKind.statefulSet with
  | some e => Except.ok (clusterStageFail DorisClusterOprStage.StageCnConfigmap action e, t)
  | none =>
  let serviceRef := GetCnServiceName cr
  let t := t ++ [ClientOp.deleteWhenExist serviceRef K8sKind.service]
  match env.deleteRes serviceRef K8sKind.service with
  | some e => Except.ok (clusterStageFail DorisClusterOprStage.StageCnConfigmap action e, t)
  | none =>
  let peerServiceRef := GetCnPeerServiceName cr
  let t := t ++ [ClientOp.deleteWhenExist peerServiceRef K8sKind.service]
  match env.deleteRes peerServiceRef K8sKind.service with
  | some e => Except.ok (clusterStageFail DorisClusterOprStage.StageCnConfigmap action e, t)
  | none =>
  let configMapRef := GetCnConfigMapName cr
  let t := t ++ [ClientOp.deleteWhenExist configMapRef K8sKind.configMap]
  match env.deleteRes configMapRef K8sKind.configMap with
  | some e => Except.ok (clusterStageFail DorisClusterOprStage.StageCnConfigmap action e, t)
  | none => Except.ok (clusterStageSucc DorisClusterOprStage.StageCn action, t)

/-- `recCnResources` (source lines 221-286). -/
def recCnResources (cr : DorisCluster) (env : Env) : StageFn := fun t =>
  match cr.spec.cn with
  | some cn => cnApplyRes cr cn env t
  | none => cnDeleteRes cr env t

/-- name of the Broker configuration bundle. -/
def GetBrokerConfigMapName (cr : DorisCluster) : ObjKey :=
  ⟨cr.ns, cr.name ++ "-broker-config"⟩

/-- name of the Broker headless peer service. -/
def GetBrokerPeerServiceName (cr : DorisCluster) : ObjKey :=
  ⟨cr.ns, cr.name ++ "-broker-peer"⟩

/-- name of the Broker workload set. -/
def GetBrokerStatefulSetName (cr : DorisCluster) : ObjKey :=
  ⟨cr.ns, cr.name ++ "-broker"⟩

/-- Modelled from the spec: `MakeBrokerConfigMap` (not under src/). -/
def brokerConfigMapObj (cr : DorisCluster) (brk : BrokerSpec) : ConfigMap :=
  let ref := GetBrokerConfigMapName cr
  let data : DataMap :=
    [("apache_hdfs_broker.conf", dumpJavaBasedComponentConf brk.configs)]
  let data : DataMap :=
    match cr.spec.hadoopConf with
    | some h => MergeMaps (h.config.map fun kv => (kv.1, ConfVal.raw kv.2)) data
    | none => data
  { metadata :=
      { ns := ref.ns, name := ref.name,
        labels := some (MakeResourceLabels cr.name "broker") },
    data := data }

/-- Modelled from the spec: `MakeBrokerPeerService` (not under src/). -/
def brokerPeerServiceObj (cr : DorisCluster) (_brk : BrokerSpec) : Service :=
  let ref := GetBrokerPeerServiceName cr
  { metadata :=
      { ns := ref.ns, name := ref.name,
        labels := some (MakeResourceLabels cr.name "broker") },
    type := "ClusterIP", selector := some (MakeResourceLabels cr.name "broker"),
    clusterIP := "None" }

/-- Modelled from the spec: `MakeBrokerStatefulSet` (not under src/); its
object annotations map is taken to be initialized. -/
def brokerStatefulSetObj (cr : DorisCluster) (brk : BrokerSpec) : StatefulSet :=
  let ref := GetBrokerStatefulSetName cr
  { metadata :=
      { ns := ref.ns, name := ref.name,
        labels := some (MakeResourceLabels cr.name "broker"), annotations := some [] },
    spec :=
      { replicas := some brk.replicas,
        serviceName := (GetBrokerPeerServiceName cr).name,
          template :=
          { metadata :=
              { labels := some (MakeResourceLabels cr.name "broker"), annotations := some [] },
            spec := {} } } }

/-- the apply path of `recBrokerResources` (source lines 292-311): the broker
has no client-facing service, only the peer service. -/
def brokerApplyRes (cr : DorisCluster) (brk : BrokerSpec) (env : Env) : StageFn := fun t =>
  let action := OprStageAction.StageActionApply
  let configMap := brokerConfigMapObj cr brk
  let t := t ++ [ClientOp.createOrUpdate (K8sObj.configMap configMap)]
  match env.createOrUpdateRes (K8sObj.configMap configMap) with
  | some e => Except.ok (clusterStageFail DorisClusterOprStage.StageBrokerConfigmap action e, t)
  | none =>
  let peerService := brokerPeerServiceObj cr brk
  let t := t ++ [ClientOp.createOrUpdate (K8sObj.service peerService)]
  match env.createOrUpdateRes (K8sObj.service peerService) with
  | some e => Except.ok (clusterStageFail DorisClusterOprStage.StageBrokerService action e, t)
  | none =>
  let statefulSet := brokerStatefulSetObj cr brk
  match nilMapSet statefulSet.metadata.annotations BrokerConfHashAnnotationKey
      (AnnVal.digest (MapMd5 configMap.data)) with
  | Except.error p => Except.error p
  | Except.ok anns =>
  let statefulSet := { statefulSet with metadata := { statefulSet.metadata with annotations := anns } }
  let t := t ++ [ClientOp.createOrUpdate (K8sObj.statefulSet statefulSet)]
  match env.createOrUpdateRes (K8sObj.statefulSet statefulSet) with
  | some e => Except.ok (clusterStageFail DorisClusterOprStage.StageBrokerStatefulSet action e, t)
  | none => Except.ok (clusterStageSucc DorisClusterOprStage.StageBroker action, t)

/-- the delete path of `recBrokerResources` (source lines 314-332); every
failure branch reports `StageBrokerConfigmap` (sic). -/
def brokerDeleteRes (cr : DorisCluster) (env : Env) : StageFn := fun t =>
  let action := OprStageAction.StageActionDelete
  let statefulsetRef := GetBrokerStatefulSetName cr
  let t := t ++ [ClientOp.deleteWhenExist statefulsetRef K8sKind.statefulSet]
  match env.deleteRes statefulsetRef K8sKind.statefulSet with
  | some e => Except.ok (clusterStageFail DorisClusterOprStage.StageBrokerConfigmap action e, t)
  | none =>
  let peerServiceRef := GetBrokerPeerServiceName cr
  let t := t ++ [ClientOp.deleteWhenExist peerServiceRef K8sKind.service]
  match env.deleteRes peerServiceRef K8sKind.service with
  | some e => Except.ok (clusterStageFail DorisClusterOprStage.StageBrokerConfigmap action e, t)
  | none =>
  let configMapRef := GetBrokerConfigMapName cr
  let t := t ++ [ClientOp.deleteWhenExist configMapRef K8sKind.configMap]
  match env.deleteRes configMapRef K8sKind.configMap with
  | some e => Except.ok (clusterStageFail DorisClusterOprStage.StageBrokerConfigmap action e, t)
  | none => Except.ok (clusterStageSucc DorisClusterOprStage.StageBroker action, t)

/-- `recBrokerResources` (source lines 289-335). -/
def recBrokerResources (cr : DorisCluster) (env : Env) : StageFn := fun t =>
  match cr.spec.broker with
  | some brk => brokerApplyRes cr brk env t
  | none => brokerDeleteRes cr env t

/-- the loop body of `Reconcile` (source lines 69-75): run the stage functions
in order; return the first result carrying a non-nil error; when the list is
exhausted, return the synthetic complete result (line 75, whose composite
literal leaves `Action` at its zero value and `Err` nil). -/
def runStages (stages : List StageFn) (t : Trace) : StageOut :=
  match stages with
  | [] =>
    Except.ok ({ stage := DorisClusterOprStage.StageComplete,
                 status := OprStageStatus.StageResultSucceeded }, t)
  | fn :: rest =>
    match fn t with
    | Except.error p => Except.error p
    | Except.ok (result, t2) =>
      if result.err.isSome then Except.ok (result, t2) else runStages rest t2

/-- the fixed ordered stage list of `Reconcile` (source lines 62-68):
shared secret, FE, BE, CN, Broker. -/
def stageList (cr : DorisCluster) (env : Env) : List StageFn :=
  [recOprAccountSecret cr env, recFeResources cr env, recBeResources cr env,
   recCnResources cr env, recBrokerResources cr env]

/-- `Reconcile` (source lines 61-76), starting from the empty trace. -/
def Reconcile (cr : DorisCluster) (env : Env) : StageOut :=
  runStages (stageList cr env) []

/-- the ConfigHash value stamped for FE on the apply path
(source line 128: `util.MapMd5(configMap.Data)`). -/
def feConfigHash (cr : DorisCluster) (fe : FeSpec) : DataMap :=
  MapMd5 (feConfigMapObj cr fe).data

/-- the ConfigHash value stamped for BE on the apply path
(source line 185: `util.MapMd5(configMap.Data)`). -/
def beConfigHash (cr : DorisCluster) (be : BeSpec) : DataMap :=
  MapMd5 (beConfigMapObj cr be).data

/-- the ConfigHash value stamped for CN on the apply path
(source line 243: `util.MapMd5(configMap.Data)`). -/
def cnConfigHash (cr : DorisCluster) (cn : CnSpec) : DataMap :=
  MapMd5 (cnConfigMapObj cr cn).data

/-- the ConfigHash value stamped for Broker on the apply path
(source line 306: `util.MapMd5(configMap.Data)`). -/
def brokerConfigHash (cr : DorisCluster) (brk : BrokerSpec) : DataMap :=
  MapMd5 (brokerConfigMapObj cr brk).data

/-- the CN workload set right after the ConfigHash stamp (source line 243). -/
def cnStampedSts (cr : DorisCluster) (cn : CnSpec) : StatefulSet :=
  let sts := cnStatefulSetObj cr cn
  { sts with
    metadata :=
      { sts.metadata with
        annotations :=
          some (mapSet [] CnConfHashAnnotationKey
            (AnnVal.digest (MapMd5 (cnConfigMapObj cr cn).data))) } }

/-- the CN workload set as handed to the apply call, after the autoscaler
check (source lines 250-252): replicas nulled out exactly when a binding
was found. -/
def cnAppliedSts (cr : DorisCluster) (cn : CnSpec) (a : Option DorisAutoScaler) :
    StatefulSet :=
  let sts := cnStampedSts cr cn
  if a.isSome then { sts with spec := { sts.spec with replicas := none } } else sts

/-- a minimal concrete cluster with no role declared. -/
def crEmpty : DorisCluster := { ns := "ns", name := "a", spec := {} }

/-- a concrete FE sub-spec used to evaluate the FE stage. -/
def feW : FeSpec := { configs := [("http_port", "8030")] }

/-- a concrete cluster declaring only the FE role. -/
def crFe : DorisCluster := { ns := "ns", name := "a", spec := { fe := some feW } }

/-- a concrete CN sub-spec with a declared replica count. -/
def cnW : CnSpec := { replicas := 3 }

/-- a concrete cluster declaring only the CN role. -/
def crCn : DorisCluster := { ns := "ns", name := "a", spec := { cn := some cnW } }

/-- concrete FE service overrides: both NodePort overrides supplied. -/
def feSvcW : FeServiceSpec :=
  { type := "NodePort", httpPort := some 30002, queryPort := some 30001 }

/-- a concrete FE sub-spec with `query_port` and `http_port` configured and no
`rpc_port` key. -/
def fePorts : FeSpec :=
  { configs := [("query_port", "7777"), ("http_port", "8123")], service := some feSvcW }

/-- a concrete cluster for the FE port-derivation evaluations. -/
def crPorts : DorisCluster := { ns := "ns", name := "a", spec := { fe := some fePorts } }

/-- environment whose secret existence check fails with "boom". -/
def envSecretErr : Env :=
  { existRes := fun _ _ => Except.error "boom",
    createRes := fun _ => none, createOrUpdateRes := fun _ => none,
    deleteRes := fun _ _ => none, autoScalerRes := fun _ => Except.ok none }

/-- environment where every client operation succeeds, no object exists yet
and no autoscaler is bound. -/
def envAllOk : Env :=
  { existRes := fun _ _ => Except.ok false,
    createRes := fun _ => none, createOrUpdateRes := fun _ => none,
    deleteRes := fun _ _ => none, autoScalerRes := fun _ => Except.ok none }

/-- environment where the credential secret already exists and every
operation succeeds. -/
def envSecretExists : Env :=
  { existRes := fun _ _ => Except.ok true,
    createRes := fun _ => none, createOrUpdateRes := fun _ => none,
    deleteRes := fun _ _ => none, autoScalerRes := fun _ => Except.ok none }

/-- environment where deleting any StatefulSet fails with "del-err" and every
other operation succeeds. -/
def envFeDelStsErr : Env :=
  { existRes := fun _ _ => Except.ok true,
    createRes := fun _ => none, createOrUpdateRes := fun _ => none,
    deleteRes := fun _ kind => if kind = K8sKind.statefulSet then some "del-err" else none,
    autoScalerRes := fun _ => Except.ok none }

/-- environment where an autoscaler binding exists for every lookup. -/
def envCnAs : Env :=
  { existRes := fun _ _ => Except.ok true,
    createRes := fun _ => none, createOrUpdateRes := fun _ => none,
    deleteRes := fun _ _ => none,
    autoScalerRes := fun _ => Except.ok (some { name := "as" }) }

/-- environment whose autoscaler lookup fails with "as-err" while every
object-store operation succeeds. -/
def envCnAsErr : Env :=
  { existRes := fun _ _ => Except.ok true,
    createRes := fun _ => none, createOrUpdateRes := fun _ => none,
    deleteRes := fun _ _ => none, autoScalerRes := fun _ => Except.error "as-err" }

/-- a pair of FE sub-specs whose configuration maps differ as lists but agree
as maps (a duplicated key, first binding winning). -/
def feH1 : FeSpec := { configs := [("x", "1"), ("x", "2")] }

/-- the same configuration content as `feH1` with a different affinity. -/
def feH2 : FeSpec := { configs := [("x", "1")], affinity := some "zone-a" }

/-- a one-key FE configuration used to change a key's value. -/
def feH3 : FeSpec := { configs := [("a", "1")] }

/-- a one-key BE configuration used to change a key's value. -/
def beH : BeSpec := { configs := [("a", "1")] }

/-- a one-key CN configuration used to change a key's value. -/
def cnH : CnSpec := { configs := [("a", "1")] }

/-- a one-key Broker configuration used to change a key's value. -/
def brkH : BrokerSpec := { configs := [("a", "1")] }

/-- pairwise-distinct keys of an association list. -/
def KeysNodup {α : Type} (l : List (String × α)) : Prop :=
  l.Pairwise (fun a b => a.1 ≠ b.1)

theorem lookupKV_dedupKeysAux {α : Type} :
    ∀ (m : List (String × α)) (seen : List String) (k : String),
      lookupKV (dedupKeysAux m seen) k =
        if k ∈ seen then none else lookupKV m k := by
  intro m
  induction m with
  | nil => intro seen k; simp [dedupKeysAux, lookupKV]
  | cons kv rest ih =>
    intro seen k
    by_cases hseen : kv.1 ∈ seen
    · rw [dedupKeysAux]
      simp only [hseen, if_true, ih]
      by_cases hk : k ∈ seen
      · simp [hk]
      · have hne : kv.1 ≠ k := fun h => hk (h ▸ hseen)
        simp [hk, lookupKV, hne]
    · rw [dedupKeysAux]
      simp only [hseen, if_false]
      by_cases hkv : kv.1 = k
      · subst hkv
        simp [lookupKV, hseen]
      · rw [lookupKV]
        simp only [hkv, if_false, ih]
        rw [lookupKV]
        simp only [hkv, if_false]
        have hne2 : ¬ k = kv.1 := fun h => hkv h.symm
        by_cases hk : k ∈ seen
        · simp [hk, List.mem_cons]
        · simp [hk, List.mem_cons, hne2]

theorem lookupKV_dedupKeys {α : Type} (m : List (String × α)) (k : String) :
    lookupKV (dedupKeys m) k = lookupKV m k := by
  rw [dedupKeys, lookupKV_dedupKeysAux]
  simp

theorem mem_dedupKeysAux_not_seen {α : Type} :
    ∀ (m : List (String × α)) (seen : List String) (kv : String × α),
      kv ∈ dedupKeysAux m seen → kv.1 ∉ seen := by
  intro m
  induction m with
  | nil => intro seen kv h; simp [dedupKeysAux] at h
  | cons hd rest ih =>
    intro seen kv h
    by_cases hseen : hd.1 ∈ seen
    · rw [dedupKeysAux] at h
      simp only [hseen, if_true] at h
      exact ih seen kv h
    · rw [dedupKeysAux] at h
      simp only [hseen, if_false, List.mem_cons] at h
      rcases h with h | h
      · subst h; exact hseen
      · have h2 := ih (hd.1 :: seen) kv h
        intro hk
        exact h2 (List.mem_cons_of_mem _ hk)

theorem keysNodup_dedupKeysAux {α : Type} :
    ∀ (m : List (String × α)) (seen : List String),
      KeysNodup (dedupKeysAux m seen) := by
  intro m
  induction m with
  | nil => intro seen; simp [dedupKeysAux, KeysNodup]
  | cons hd rest ih =>
    intro seen
    by_cases hseen : hd.1 ∈ seen
    · rw [dedupKeysAux]; simp only [hseen, if_true]; exact ih seen
    · rw [dedupKeysAux]
      simp only [hseen, if_false]
      refine List.Pairwise.cons ?_ (ih (hd.1 :: seen))
      intro kv hkv
      have := mem_dedupKeysAux_not_seen rest (hd.1 :: seen) kv hkv
      intro heq
      exact this (heq ▸ List.mem_cons_self _ _)

theorem keysNodup_dedupKeys {α : Type} (m : List (String × α)) :
    KeysNodup (dedupKeys m) :=
  keysNodup_dedupKeysAux m []

theorem lookupKV_eq_some_iff_mem {α : Type} :
    ∀ {l : List (String × α)}, KeysNodup l → ∀ (k : String) (v : α),
      (lookupKV l k = some v ↔ (k, v) ∈ l) := by
  intro l
  induction l with
  | nil => intro _ k v; simp [lookupKV]
  | cons hd rest ih =>
    intro hnd k v
    have htail : KeysNodup rest := (List.pairwise_cons.1 hnd).2
    have hhead : ∀ kv2 ∈ rest, hd.1 ≠ kv2.1 :=
      fun kv2 h2 => (List.pairwise_cons.1 hnd).1 kv2 h2
    by_cases hk : hd.1 = k
    · subst hk
      rw [lookupKV]
      simp only [if_true]
      constructor
      · intro h
        injection h with h
        subst h
        exact List.mem_cons_self _ _
      · intro h
        rcases List.mem_cons.1 h with h | h
        · rw [← h]
        · exact absurd rfl (hhead (hd.1, v) h)
    · rw [lookupKV]
      simp only [hk, if_false]
      rw [ih htail k v]
      constructor
      · intro h; exact List.mem_cons_of_mem _ h
      · intro h
        rcases List.mem_cons.1 h with h | h
        · exact absurd (congrArg Prod.fst h).symm hk
        · exact h

theorem lookupKV_perm {α : Type} {l l2 : List (String × α)}
    (hnd : KeysNodup l) (p : l.Perm l2) (k : String) :
    lookupKV l k = lookupKV l2 k := by
  have hnd2 : KeysNodup l2 :=
    (p.pairwise_iff (fun hab heq => hab heq.symm)).1 hnd
  cases h1 : lookupKV l k with
  | some v =>
    exact ((lookupKV_eq_some_iff_mem hnd2 k v).2
      (p.mem_iff.1 ((lookupKV_eq_some_iff_mem hnd k v).1 h1))).symm
  | none =>
    cases h2 : lookupKV l2 k with
    | none => rfl
    | some v =>
      have := (lookupKV_eq_some_iff_mem hnd k v).2
        (p.mem_iff.2 ((lookupKV_eq_some_iff_mem hnd2 k v).1 h2))
      rw [h1] at this
      exact Option.noConfusion this

theorem lookupKV_canonMap {α : Type} (m : List (String × α)) (k : String) :
    lookupKV (canonMap m) k = lookupKV m k := by
  rw [canonMap]
  rw [← lookupKV_perm (keysNodup_dedupKeys m)
    (List.perm_insertionSort keyLe (dedupKeys m)).symm k]
  exact lookupKV_dedupKeys m k

theorem canonMap_ne_of_lookup_ne {α : Type} {m m2 : List (String × α)} (k : String)
    (h : lookupKV m k ≠ lookupKV m2 k) : canonMap m ≠ canonMap m2 := by
  intro hc
  apply h
  rw [← lookupKV_canonMap m k, ← lookupKV_canonMap m2 k, hc]

theorem lookupKV_replaceKey {α : Type} :
    ∀ (m : List (String × α)) (k : String) (v2 : α),
      lookupKV (m.map (fun kv => if kv.1 = k then (k, v2) else kv)) k =
        (lookupKV m k).map (fun _ => v2) := by
  intro m
  induction m with
  | nil => intro k v2; simp [lookupKV]
  | cons hd rest ih =>
    intro k v2
    by_cases hk : hd.1 = k
    · simp [lookupKV, hk]
    · simp only [List.map_cons, hk, if_false]
      rw [lookupKV]
      simp only [hk, if_false]
      rw [lookupKV]
      simp only [hk, if_false]
      exact ih k v2

theorem lookupKV_mapSet_self {α : Type} (m : List (String × α)) (k : String)
    (v v2 : α) (h : lookupKV m k = some v) :
    lookupKV (mapSet m k v2) k = some v2 := by
  rw [mapSet]
  simp only [h, Option.isSome_some, if_true]
  rw [lookupKV_replaceKey, h]
  rfl

theorem feConfigMapObj_data_feconf (cr : DorisCluster) (fe : FeSpec) :
    lookupKV (feConfigMapObj cr fe).data "fe.conf" =
      some (dumpJavaBasedComponentConf fe.configs) := by
  rw [feConfigMapObj]
  cases cr.spec.hadoopConf <;> simp [MergeMaps, lookupKV]

theorem beConfigMapObj_data_beconf (cr : DorisCluster) (be : BeSpec) :
    lookupKV (beConfigMapObj cr be).data "be.conf" =
      some (dumpJavaBasedComponentConf be.configs) := by
  rw [beConfigMapObj]
  cases cr.spec.hadoopConf <;> simp [MergeMaps, lookupKV]

theorem cnConfigMapObj_data_beconf (cr : DorisCluster) (cn : CnSpec) :
    lookupKV (cnConfigMapObj cr cn).data "be.conf" =
      some (dumpJavaBasedComponentConf cn.configs) := by
  rw [cnConfigMapObj]
  cases cr.spec.hadoopConf <;> simp [MergeMaps, lookupKV]

theorem brokerConfigMapObj_data_conf (cr : DorisCluster) (brk : BrokerSpec) :
    lookupKV (brokerConfigMapObj cr brk).data "apache_hdfs_broker.conf" =
      some (dumpJavaBasedComponentConf brk.configs) := by
  rw [brokerConfigMapObj]
  cases cr.spec.hadoopConf <;> simp [MergeMaps, lookupKV]

theorem mapMd5_ne_of_key_change {d d2 : DataMap} (fileName : String)
    (configs : SMap) (k : String) (v v2 : String)
    (hd : lookupKV d fileName = some (dumpJavaBasedComponentConf configs))
    (hd2 : lookupKV d2 fileName =
      some (dumpJavaBasedComponentConf (mapSet configs k v2)))
    (hv : lookupKV configs k = some v) (hne : v ≠ v2) :
    MapMd5 d2 ≠ MapMd5 d := by
  intro hEq
  have hEq2 : canonMap d2 = canonMap d := hEq
  have h1 : lookupKV d2 fileName = lookupKV d fileName := by
    rw [← lookupKV_canonMap d2 fileName, ← lookupKV_canonMap d fileName, hEq2]
  rw [hd, hd2] at h1
  injection h1 with h1
  rw [dumpJavaBasedComponentConf, dumpJavaBasedComponentConf] at h1
  injection h1 with h1
  have h2 : lookupKV (mapSet configs k v2) k = lookupKV configs k := by
    rw [← lookupKV_canonMap (mapSet configs k v2) k,
        ← lookupKV_canonMap configs k, h1]
  rw [lookupKV_mapSet_self configs k v v2 hv, hv] at h2
  injection h2 with h2
  exact hne h2.symm

theorem runStages_append (l1 l2 : List StageFn) (t : Trace) :
    runStages (l1 ++ l2) t =
      match runStages l1 t with
      | Except.error p => Except.error p
      | Except.ok (r, t2) =>
        if r.err.isSome then Except.ok (r, t2) else runStages l2 t2 := by
  induction l1 generalizing t with
  | nil => simp [runStages]
  | cons f rest ih =>
    rw [List.cons_append, runStages, runStages]
    cases f t with
    | error p => rfl
    | ok rt =>
      obtain ⟨r, t2⟩ := rt
      by_cases h : r.err.isSome
      · simp [h]
      · simp [h, ih]

theorem runStages_ok_noerr :
    ∀ (l : List StageFn) (t t2 : Trace) (r : ClusterStageRecResult),
      runStages l t = Except.ok (r, t2) → r.err = none →
      r = { stage := DorisClusterOprStage.StageComplete,
            status := OprStageStatus.StageResultSucceeded } := by
  intro l
  induction l with
  | nil =>
    intro t t2 r h _
    rw [runStages] at h
    injection h with h
    exact (congrArg Prod.fst h).symm
  | cons f rest ih =>
    intro t t2 r h hnone
    rw [runStages] at h
    cases hf : f t with
    | error p => rw [hf] at h; exact Except.noConfusion h
    | ok rt =>
      obtain ⟨r0, t0⟩ := rt
      rw [hf] at h
      by_cases he : r0.err.isSome
      · simp only [he, if_true] at h
        injection h with h
        have : r0 = r := congrArg Prod.fst h
        rw [this, hnone] at he
        exact absurd he (by simp)
      · simp only [he, if_false] at h
        exact ih t0 t2 r h hnone

/-- C1: `Reconcile` executes the stages in the fixed order shared-secret, FE,
BE, CN, Broker (first conjunct: it is exactly the left-to-right `runStages`
loop over that ordered list).  For every run, the first stage that returns a
result with a non-nil error ends the pass with exactly that stage's result,
and no later stage function is invoked — the second conjunct returns the
failing prefix's result AND its trace unchanged, so no client call of any
later stage is ever issued.  If every stage returns a nil error, `Reconcile`
returns a result with stage `StageComplete`, status succeeded and no
role-specific stage identifier (third conjunct). -/
theorem C1_reconcile_order_and_short_circuit :
    (∀ cr env, Reconcile cr env =
      runStages [recOprAccountSecret cr env, recFeResources cr env,
        recBeResources cr env, recCnResources cr env, recBrokerResources cr env] [])
    ∧ (∀ cr env l1 l2 r t, stageList cr env = l1 ++ l2 →
        runStages l1 [] = Except.ok (r, t) → r.err.isSome →
        Reconcile cr env = Except.ok (r, t))
    ∧ (∀ cr env r t, Reconcile cr env = Except.ok (r, t) → r.err = none →
        r = { stage := DorisClusterOprStage.StageComplete,
              status := OprStageStatus.StageResultSucceeded }) := by
  refine ⟨fun cr env => rfl, ?_, ?_⟩
  · intro cr env l1 l2 r t hsplit h1 herr
    rw [Reconcile, hsplit, runStages_append, h1]
    simp [herr]
  · intro cr env r t h hnone
    exact runStages_ok_noerr (stageList cr env) [] t r h hnone

/-- witness for C1: on a cluster with no declared role and an environment
whose secret existence check fails with "boom", the pass ends with the
shared-secret stage's failing result after exactly one client call. -/
theorem C1_witness :
    Reconcile crEmpty envSecretErr =
      Except.ok (clusterStageFail DorisClusterOprStage.StageSqlAccountSecret
          OprStageAction.StageActionApply "boom",
        [ClientOp.exist (GetOprSqlAccountSecretKey crEmpty) K8sKind.secret]) :=
  C1_reconcile_order_and_short_circuit.2.1 crEmpty envSecretErr
    [recOprAccountSecret crEmpty envSecretErr]
    [recFeResources crEmpty envSecretErr, recBeResources crEmpty envSecretErr,
     recCnResources crEmpty envSecretErr, recBrokerResources crEmpty envSecretErr]
    (clusterStageFail DorisClusterOprStage.StageSqlAccountSecret
      OprStageAction.StageActionApply "boom")
    [ClientOp.exist (GetOprSqlAccountSecretKey crEmpty) K8sKind.secret]
    rfl rfl rfl

/-- C3 (code bug): every stage that aborts hands its error to
`clusterStageFail`, whose result carries status `StageResultSucceeded`
(source line 83), not the failed status the claim requires; the second
conjunct evaluates a full failing pass, whose returned result carries the
error together with the succeeded status. -/
theorem C3_fail_status_not_failed :
    (∀ (s : DorisClusterOprStage) (a : OprStageAction) (e : Err),
        (clusterStageFail s a e).status = OprStageStatus.StageResultSucceeded)
    ∧ Reconcile crEmpty envSecretErr =
        Except.ok ({ stage := DorisClusterOprStage.StageSqlAccountSecret,
                     status := OprStageStatus.StageResultSucceeded,
                     action := OprStageAction.StageActionApply,
                     err := some "boom" },
          [ClientOp.exist (GetOprSqlAccountSecretKey crEmpty) K8sKind.secret]) :=
  ⟨fun _ _ _ => rfl, rfl⟩

/-- C8: when the existence check reports the credential secret present, the
shared-secret stage returns success having issued no create or update on it
(its trace holds the existence check alone, so the stored secret is left
untouched and never rotated); a create is issued exactly when the check
reports it absent (second conjunct). -/
theorem C8_secret_created_once_never_rotated :
    ∀ cr env t,
      (env.existRes (GetOprSqlAccountSecretKey cr) K8sKind.secret = Except.ok true →
        recOprAccountSecret cr env t =
          Except.ok (clusterStageSucc DorisClusterOprStage.StageSqlAccountSecret
              OprStageAction.StageActionApply,
            t ++ [ClientOp.exist (GetOprSqlAccountSecretKey cr) K8sKind.secret]))
      ∧ (env.existRes (GetOprSqlAccountSecretKey cr) K8sKind.secret = Except.ok false →
        recOprAccountSecret cr env t =
          Except.ok (
            (match env.createRes (MakeOprSqlAccountSecret cr) with
             | some e => clusterStageFail DorisClusterOprStage.StageSqlAccountSecret
                 OprStageAction.StageActionApply e
             | none => clusterStageSucc DorisClusterOprStage.StageSqlAccountSecret
                 OprStageAction.StageActionApply),
            t ++ [ClientOp.exist (GetOprSqlAccountSecretKey cr) K8sKind.secret,
              ClientOp.create (MakeOprSqlAccountSecret cr)])) := by
  intro cr env t
  constructor
  · intro h
    simp [recOprAccountSecret, h]
  · intro h
    simp only [recOprAccountSecret, h]
    cases env.createRes (MakeOprSqlAccountSecret cr) <;> simp

/-- witness for C8: with the secret already present, the stage succeeds with
only the existence check in its trace. -/
theorem C8_witness :
    recOprAccountSecret crEmpty envSecretExists [] =
      Except.ok (clusterStageSucc DorisClusterOprStage.StageSqlAccountSecret
          OprStageAction.StageActionApply,
        [ClientOp.exist (GetOprSqlAccountSecretKey crEmpty) K8sKind.secret]) :=
  (C8_secret_created_once_never_rotated crEmpty envSecretExists []).1 rfl

/-- C10 (code bug): the StatefulSet built by `MakeFeStatefulSet` carries a nil
(`none`) object-metadata annotations map, so the FE apply path's write of the
config-hash annotation (source line 128) is a write into a nil map: on a
cluster declaring FE, with every client call succeeding, the stage faults
instead of completing. -/
theorem C10_fe_statefulset_annotations_nil :
    (feStatefulSetObj crFe feW).metadata.annotations = none
    ∧ MakeFeStatefulSet crFe = some (feStatefulSetObj crFe feW)
    ∧ recFeResources crFe envAllOk [] = Except.error Panic.nilMapWrite :=
  ⟨rfl, rfl, rfl⟩

/-- C2 (code bug): the pod template built for the FE workload set carries
exactly the three Prometheus annotations and no config-hash key under
`FeConfHashAnnotationKey`; the hash write of the apply path targets the
workload set object's own metadata instead (source line 128), which is nil,
so the apply path faults — the hash is never stamped on the pod template. -/
theorem C2_confighash_misses_pod_template :
    (feStatefulSetObj crFe feW).spec.template.metadata.annotations =
      some [(PrometheusPathAnnoKey, AnnVal.str "/metrics"),
        (PrometheusPortAnnoKey, AnnVal.str (toString (GetFeHttpPort crFe))),
        (PrometheusScrapeAnnoKey, AnnVal.str "true")]
    ∧ lookupKV ((feStatefulSetObj crFe feW).spec.template.metadata.annotations.getD [])
        FeConfHashAnnotationKey = none
    ∧ recFeResources crFe envAllOk [] = Except.error Panic.nilMapWrite :=
  ⟨rfl, rfl, rfl⟩

/-- C7 (code bug): on a cluster whose FE sub-spec is absent, a failure while
deleting the FE workload set (the first deletion step) aborts the stage with
no later deletion attempted — but the returned result's stage identifier is
`StageFeConfigmap`, not an identifier naming the failed workload-set step
(source line 141); the second conjunct shows the full deletion order
workload set, client service, peer service, configuration bundle when every
step succeeds. -/
theorem C7_delete_failure_stage_mislabelled :
    recFeResources crEmpty envFeDelStsErr [] =
      Except.ok (clusterStageFail DorisClusterOprStage.StageFeConfigmap
          OprStageAction.StageActionDelete "del-err",
        [ClientOp.deleteWhenExist (GetFeStatefulSetName crEmpty) K8sKind.statefulSet])
    ∧ recFeResources crEmpty envAllOk [] =
      Except.ok (clusterStageSucc DorisClusterOprStage.StageFe
          OprStageAction.StageActionDelete,
        [ClientOp.deleteWhenExist (GetFeStatefulSetName crEmpty) K8sKind.statefulSet,
         ClientOp.deleteWhenExist (GetFeServiceName crEmpty) K8sKind.service,
         ClientOp.deleteWhenExist (GetFePeerServiceName crEmpty) K8sKind.service,
         ClientOp.deleteWhenExist (GetFeConfigMapName crEmpty) K8sKind.configMap]) :=
  ⟨rfl, rfl⟩

/-- C5 (code bug): with `query_port=7777` and `http_port=8123` configured and
no `rpc_port` key, `GetFeHttpPort`, `GetFeQueryPort` and `GetFeEditLogPort`
read their like-named keys, but `GetFeRpcPort` returns 7777 — it reads
`"query_port"` instead of `"rpc_port"` (source line 92) and ignores its 9020
default; and in the built FE service the user-supplied QueryPort override
(30001) lands on the http-port entry's NodePort while the HttpPort override
(30002) lands on the query-port entry (source lines 160-165), the opposite of
the claim. -/
theorem C5_port_key_and_nodeport_swap :
    GetFeHttpPort crPorts = 8123
    ∧ GetFeQueryPort crPorts = 7777
    ∧ GetFeEditLogPort crPorts = 9010
    ∧ GetFeRpcPort crPorts = 7777
    ∧ lookupKV fePorts.configs "rpc_port" = none
    ∧ (feServiceObj crPorts fePorts).ports =
        [{ name := "http-port", port := 8123, nodePort := 30001 },
         { name := "query-port", port := 7777, nodePort := 30002 }] := by
  refine ⟨?_, ?_, ?_, ?_, ?_, ?_⟩ <;> decide

/-- C4: for every cluster declaring the CN role, once the three earlier CN
applies succeed and the autoscaler lookup returns `a`, the workload set handed
to the apply call is `cnAppliedSts cr cn a`: its replica field is nil whenever
a binding was found, regardless of the declared replica count, and is the
sub-spec's replica count when the lookup returned null (second conjunct). -/
theorem C4_cn_replicas_ceded_to_autoscaler :
    ∀ cr cn env t a,
      cr.spec.cn = some cn →
      env.createOrUpdateRes (K8sObj.configMap (cnConfigMapObj cr cn)) = none →
      env.createOrUpdateRes (K8sObj.service (cnServiceObj cr cn)) = none →
      env.createOrUpdateRes (K8sObj.service (cnPeerServiceObj cr cn)) = none →
      env.autoScalerRes (crObjKey cr) = Except.ok a →
      (recCnResources cr env t =
        Except.ok (
          (match env.createOrUpdateRes (K8sObj.statefulSet (cnAppliedSts cr cn a)) with
           | some e => clusterStageFail DorisClusterOprStage.StageCnStatefulSet
               OprStageAction.StageActionApply e
           | none => clusterStageSucc DorisClusterOprStage.StageCn
               OprStageAction.StageActionApply),
          t ++ [ClientOp.createOrUpdate (K8sObj.configMap (cnConfigMapObj cr cn)),
            ClientOp.createOrUpdate (K8sObj.service (cnServiceObj cr cn)),
            ClientOp.createOrUpdate (K8sObj.service (cnPeerServiceObj cr cn)),
            ClientOp.findAutoScaler (crObjKey cr),
            ClientOp.createOrUpdate (K8sObj.statefulSet (cnAppliedSts cr cn a))]))
      ∧ (cnAppliedSts cr cn a).spec.replicas =
          (if a.isSome then none else some cn.replicas) := by
  intro cr cn env t a hcn h1 h2 h3 ha
  constructor
  · cases a with
    | none =>
      simp only [recCnResources, hcn, cnApplyRes, h1, h2, h3, ha, nilMapSet,
        cnAppliedSts, cnStampedSts, cnStatefulSetObj, Option.isSome_none,
        Bool.false_eq_true, if_false, List.append_assoc, List.cons_append,
        List.nil_append]
      split <;> rfl
    | some asc =>
      simp only [recCnResources, hcn, cnApplyRes, h1, h2, h3, ha, nilMapSet,
        cnAppliedSts, cnStampedSts, cnStatefulSetObj, Option.isSome_some,
        if_true, List.append_assoc, List.cons_append, List.nil_append]
      split <;> rfl
  · cases a <;> rfl

/-- witness for C4: on the concrete CN cluster with declared replicas 3 and an
environment binding an autoscaler, the workload set handed to the apply call
has a nil replica field. -/
theorem C4_witness :
    (cnAppliedSts crCn cnW (some { name := "as" })).spec.replicas = none := by
  have h := (C4_cn_replicas_ceded_to_autoscaler crCn cnW envCnAs [] (some { name := "as" })
      rfl rfl rfl rfl rfl).2
  simpa using h

/-- counterexample for C6: with the CN role declared and an environment whose
autoscaler lookup fails, the stage does abort with the lookup error — but its
trace already contains create-or-update (apply) calls for the CN configuration
bundle and both services, refuting "before any apply call for any CN-owned
object is attempted" (the second conjunct exhibits the configmap apply in the
trace). -/
theorem C6_counterexample_applies_precede_lookup :
    recCnResources crCn envCnAsErr [] =
      Except.ok (clusterStageFail DorisClusterOprStage.StageCnStatefulSet
          OprStageAction.StageActionApply "as-err",
        [ClientOp.createOrUpdate (K8sObj.configMap (cnConfigMapObj crCn cnW)),
         ClientOp.createOrUpdate (K8sObj.service (cnServiceObj crCn cnW)),
         ClientOp.createOrUpdate (K8sObj.service (cnPeerServiceObj crCn cnW)),
         ClientOp.findAutoScaler (crObjKey crCn)])
    ∧ ClientOp.createOrUpdate (K8sObj.configMap (cnConfigMapObj crCn cnW)) ∈
        [ClientOp.createOrUpdate (K8sObj.configMap (cnConfigMapObj crCn cnW)),
         ClientOp.createOrUpdate (K8sObj.service (cnServiceObj crCn cnW)),
         ClientOp.createOrUpdate (K8sObj.service (cnPeerServiceObj crCn cnW)),
         ClientOp.findAutoScaler (crObjKey crCn)] :=
  ⟨rfl, List.mem_cons_self _ _⟩

/-- C6 as amended: an autoscaler-lookup error aborts the CN stage with that
error before the apply of the CN workload set is attempted (the trace ends at
the lookup, containing no StatefulSet apply), though the applies for the CN
configuration bundle and the two services have already been issued by then. -/
theorem C6_amended_lookup_error_aborts_before_workload_apply :
    ∀ cr cn env t e,
      cr.spec.cn = some cn →
      env.createOrUpdateRes (K8sObj.configMap (cnConfigMapObj cr cn)) = none →
      env.createOrUpdateRes (K8sObj.service (cnServiceObj cr cn)) = none →
      env.createOrUpdateRes (K8sObj.service (cnPeerServiceObj cr cn)) = none →
      env.autoScalerRes (crObjKey cr) = Except.error e →
      recCnResources cr env t =
        Except.ok (clusterStageFail DorisClusterOprStage.StageCnStatefulSet
            OprStageAction.StageActionApply e,
          t ++ [ClientOp.createOrUpdate (K8sObj.configMap (cnConfigMapObj cr cn)),
            ClientOp.createOrUpdate (K8sObj.service (cnServiceObj cr cn)),
            ClientOp.createOrUpdate (K8sObj.service (cnPeerServiceObj cr cn)),
            ClientOp.findAutoScaler (crObjKey cr)]) := by
  intro cr cn env t e hcn h1 h2 h3 ha
  simp only [recCnResources, hcn, cnApplyRes, h1, h2, h3, ha, nilMapSet,
    cnStatefulSetObj, List.append_assoc, List.cons_append, List.nil_append]

/-- witness for C6: the amended statement evaluated on the concrete CN cluster
and a failing-lookup environment. -/
theorem C6_witness :
    recCnResources crCn envCnAsErr [] =
      Except.ok (clusterStageFail DorisClusterOprStage.StageCnStatefulSet
          OprStageAction.StageActionApply "as-err",
        [] ++ [ClientOp.createOrUpdate (K8sObj.configMap (cnConfigMapObj crCn cnW)),
         ClientOp.createOrUpdate (K8sObj.service (cnServiceObj crCn cnW)),
         ClientOp.createOrUpdate (K8sObj.service (cnPeerServiceObj crCn cnW)),
         ClientOp.findAutoScaler (crObjKey crCn)]) :=
  C6_amended_lookup_error_aborts_before_workload_apply crCn cnW envCnAsErr [] "as-err"
    rfl rfl rfl rfl rfl

/-- C9: for every role (FE, BE, CN, Broker), the ConfigHash stamped on apply
is a deterministic function of that role's configuration bundle data alone —
equal generated content gives an equal hash (each role's first conjunct); two
sub-specs agreeing on the configuration sub-spec give the same hash whatever
their other fields (e.g. affinity, replicas) are (second conjunct); and
changing the value at any existing key of the configuration sub-spec changes
the hash on the next pass (third conjunct). -/
theorem C9_confighash_content_function :
    ((∀ cr fe cr2 fe2,
        canonMap (feConfigMapObj cr fe).data = canonMap (feConfigMapObj cr2 fe2).data →
        feConfigHash cr fe = feConfigHash cr2 fe2)
     ∧ (∀ cr fe fe2, FeSpec.configs fe = FeSpec.configs fe2 →
        feConfigHash cr fe = feConfigHash cr fe2)
     ∧ (∀ cr fe k v v2,
        lookupKV (FeSpec.configs fe) k = some v → v ≠ v2 →
        feConfigHash cr { fe with configs := mapSet fe.configs k v2 } ≠
          feConfigHash cr fe))
    ∧ ((∀ cr be cr2 be2,
        canonMap (beConfigMapObj cr be).data = canonMap (beConfigMapObj cr2 be2).data →
        beConfigHash cr be = beConfigHash cr2 be2)
     ∧ (∀ cr be be2, BeSpec.configs be = BeSpec.configs be2 →
        beConfigHash cr be = beConfigHash cr be2)
     ∧ (∀ cr be k v v2,
        lookupKV (BeSpec.configs be) k = some v → v ≠ v2 →
        beConfigHash cr { be with configs := mapSet be.configs k v2 } ≠
          beConfigHash cr be))
    ∧ ((∀ cr cn cr2 cn2,
        canonMap (cnConfigMapObj cr cn).data = canonMap (cnConfigMapObj cr2 cn2).data →
        cnConfigHash cr cn = cnConfigHash cr2 cn2)
     ∧ (∀ cr cn cn2, CnSpec.configs cn = CnSpec.configs cn2 →
        cnConfigHash cr cn = cnConfigHash cr cn2)
     ∧ (∀ cr cn k v v2,
        lookupKV (CnSpec.configs cn) k = some v → v ≠ v2 →
        cnConfigHash cr { cn with configs := mapSet cn.configs k v2 } ≠
          cnConfigHash cr cn))
    ∧ ((∀ cr brk cr2 brk2,
        canonMap (brokerConfigMapObj cr brk).data = canonMap (brokerConfigMapObj cr2 brk2).data →
        brokerConfigHash cr brk = brokerConfigHash cr2 brk2)
     ∧ (∀ cr brk brk2, BrokerSpec.configs brk = BrokerSpec.configs brk2 →
        brokerConfigHash cr brk = brokerConfigHash cr brk2)
     ∧ (∀ cr brk k v v2,
        lookupKV (BrokerSpec.configs brk) k = some v → v ≠ v2 →
        brokerConfigHash cr { brk with configs := mapSet brk.configs k v2 } ≠
          brokerConfigHash cr brk)) := by
  refine ⟨⟨?_, ?_, ?_⟩, ⟨?_, ?_, ?_⟩, ⟨?_, ?_, ?_⟩, ⟨?_, ?_, ?_⟩⟩
  · intro cr fe cr2 fe2 h
    exact h
  · intro cr fe fe2 h
    simp only [feConfigHash, MapMd5, feConfigMapObj, h]
  · intro cr fe k v v2 hv hne
    exact mapMd5_ne_of_key_change "fe.conf" fe.configs k v v2
      (feConfigMapObj_data_feconf cr fe)
      (feConfigMapObj_data_feconf cr { fe with configs := mapSet fe.configs k v2 })
      hv hne
  · intro cr be cr2 be2 h
    exact h
  · intro cr be be2 h
    simp only [beConfigHash, MapMd5, beConfigMapObj, h]
  · intro cr be k v v2 hv hne
    exact mapMd5_ne_of_key_change "be.conf" be.configs k v v2
      (beConfigMapObj_data_beconf cr be)
      (beConfigMapObj_data_beconf cr { be with configs := mapSet be.configs k v2 })
      hv hne
  · intro cr cn cr2 cn2 h
    exact h
  · intro cr cn cn2 h
    simp only [cnConfigHash, MapMd5, cnConfigMapObj, h]
  · intro cr cn k v v2 hv hne
    exact mapMd5_ne_of_key_change "be.conf" cn.configs k v v2
      (cnConfigMapObj_data_beconf cr cn)
      (cnConfigMapObj_data_beconf cr { cn with configs := mapSet cn.configs k v2 })
      hv hne
  · intro cr brk cr2 brk2 h
    exact h
  · intro cr brk brk2 h
    simp only [brokerConfigHash, MapMd5, brokerConfigMapObj, h]
  · intro cr brk k v v2 hv hne
    exact mapMd5_ne_of_key_change "apache_hdfs_broker.conf" brk.configs k v v2
      (brokerConfigMapObj_data_conf cr brk)
      (brokerConfigMapObj_data_conf cr { brk with configs := mapSet brk.configs k v2 })
      hv hne

/-- witness for C9: equal configuration content gives an equal hash even
across different representations and affinities, and changing the value at
key "a" changes each of the four roles' hashes. -/
theorem C9_witness :
    (feConfigHash crEmpty feH1 = feConfigHash crEmpty feH2)
    ∧ (feConfigHash crEmpty { feH3 with configs := mapSet feH3.configs "a" "2" } ≠
        feConfigHash crEmpty feH3)
    ∧ (beConfigHash crEmpty { beH with configs := mapSet beH.configs "a" "2" } ≠
        beConfigHash crEmpty beH)
    ∧ (cnConfigHash crEmpty { cnH with configs := mapSet cnH.configs "a" "2" } ≠
        cnConfigHash crEmpty cnH)
    ∧ (brokerConfigHash crEmpty { brkH with configs := mapSet brkH.configs "a" "2" } ≠
        brokerConfigHash crEmpty brkH) :=
  ⟨C9_confighash_content_function.1.1 crEmpty feH1 crEmpty feH2 (by decide),
   C9_confighash_content_function.1.2.2 crEmpty feH3 "a" "1" "2" (by decide) (by decide),
   C9_confighash_content_function.2.1.2.2 crEmpty beH "a" "1" "2" (by decide) (by decide),
   C9_confighash_content_function.2.2.1.2.2 crEmpty cnH "a" "1" "2" (by decide) (by decide),
   C9_confighash_content_function.2.2.2.2.2 crEmpty brkH "a" "1" "2" (by decide) (by decide)⟩

end DorisOp
